import Mathlib

/-!
Verification of the prompt container subsystem
(`qutebrowser/mainwindow/prompt.py`): the question
queuing/arbitration/re-entrancy engine, the per-mode prompt variants with
their accept contracts, and the shutdown semantics.

The Python classes are embedded as Lean structures; mutation of the shared
`Question`/prompt objects is embedded as explicit state passing (functions
return the updated values).  The Qt widget layer (layouts, labels, file
views) is presentation-side and outside the core being specified; only the
state the core logic reads and writes (line-edit contents, which field has
input focus, the current-prompt slot, the queue, the event loops) is
modelled.
-/

namespace QutePrompt

/-- Modelled from the spec: `usertypes.PromptMode` is not under `src/`.
The spec lists the question-mode enum as
\{YesNo, Text, Credentials, Filename, DownloadFilename, Alert\};
`user_pwd` is the source's name for Credentials and `download` the source's
name for DownloadFilename (those five names are the keys of the `classes`
dict in `PromptContainer.ask_question`). -/
inductive PromptMode where
  | yesno
  | text
  | user_pwd
  | filename
  | download
  | alert
deriving DecidableEq, Repr

/-- The possible values of a question's answer slot: a boolean (yes/no
prompts), a plain string (text/filename prompts), an `AuthTuple`
(credentials), or a download target (`FileDownloadTarget` wrapping a path /
`OpenFileDownloadTarget` wrapping an optional command line). -/
inductive Answer where
  | bool (b : Bool)
  | text (s : String)
  | auth (user password : String)
  | fileTarget (path : String)
  | openTarget (cmdline : Option String)
deriving DecidableEq, Repr

/-- Modelled from the spec: `usertypes.Question` is not under `src/`.
A question record: mode tag, display strings, optional default, write-once
answer slot, aborted flag, one-shot completion flag, and whether the
underlying Qt object was deleted (`sip.isdeleted`). -/
structure Question where
  mode : PromptMode
  title : Option String
  text : Option String
  default : Option Answer
  answer : Option Answer
  is_aborted : Bool
  completed : Bool
  deleted : Bool
deriving DecidableEq, Repr

/-- Modelled from the spec: `Question.cancel` marks the question aborted and
fires completion; it is a no-op if the question already completed. -/
def Question.cancel (q : Question) : Question :=
  if q.completed then q
  else { q with is_aborted := true, completed := true }

/-- Modelled from the spec: `Question.abort` is the shutdown-time rejection;
semantically identical to `cancel` (distinct notification not modelled). -/
def Question.abort (q : Question) : Question :=
  if q.completed then q
  else { q with is_aborted := true, completed := true }

/-- Modelled from the spec: `Question.done` fires the completion
notification (the answer slot itself is written by the variant's accept
path before `done` is called). -/
def Question.done (q : Question) : Question :=
  { q with completed := true }

/-- Python's `c in s` membership test on the characters of a string. -/
def pyInStr (c : Char) : List Char → Bool
  | [] => false
  | a :: rest => a = c || pyInStr c rest

/-- Split a character list at the first occurrence of `sep`: returns the
part before it and, when `sep` occurs, the part after it. -/
def splitFirst (sep : Char) : List Char → List Char × Option (List Char)
  | [] => ([], none)
  | a :: rest =>
    if a = sep then ([], some rest)
    else
      let r := splitFirst sep rest
      (a :: r.1, r.2)

/-- Python's `value.split(sep, maxsplit=1)` restricted to what the source
uses: the part before the first separator and, when present, everything
after it (which may itself contain further separators). -/
def pySplit1 (sep : Char) (s : String) : String × Option String :=
  let r := splitFirst sep s.data
  (String.mk r.1, r.2.map String.mk)

/-- Which line edit of an authentication prompt has input focus. -/
inductive AuthField where
  | user
  | password
deriving DecidableEq, Repr

/-- Direction argument of the item-focus commands. -/
inductive Direction where
  | next
  | prev
deriving DecidableEq, Repr

/-- `LineEditPrompt`: a prompt for a single text value.  `lineedit` is the
text field contents (initialised from the question's default). -/
structure LineEditPrompt where
  question : Question
  lineedit : String
deriving DecidableEq, Repr

/-- `LineEditPrompt.accept`: the override value or the current field
contents becomes the answer string; always resolves (returns true). -/
def LineEditPrompt.accept (p : LineEditPrompt) (value : Option String) :
    Except String (Bool × LineEditPrompt) :=
  let text := value.getD p.lineedit
  Except.ok (true, { p with question := { p.question with answer := some (Answer.text text) } })

/-- `DownloadFilenamePrompt`: a prompt for a download target filename. -/
structure DownloadFilenamePrompt where
  question : Question
  lineedit : String
deriving DecidableEq, Repr

/-- `DownloadFilenamePrompt.accept`: the override value or the field
contents becomes the answer, wrapped in `FileDownloadTarget`. -/
def DownloadFilenamePrompt.accept (p : DownloadFilenamePrompt) (value : Option String) :
    Except String (Bool × DownloadFilenamePrompt) :=
  let text := value.getD p.lineedit
  Except.ok (true, { p with question := { p.question with answer := some (Answer.fileTarget text) } })

/-- `DownloadFilenamePrompt.download_open`: sets the answer to
`OpenFileDownloadTarget(cmdline)`, leaves the prompt key mode (external
collaborator) and calls `question.done()`. -/
def DownloadFilenamePrompt.download_open (p : DownloadFilenamePrompt)
    (cmdline : Option String) : DownloadFilenamePrompt :=
  let q := Question.done { p.question with answer := some (Answer.openTarget cmdline) }
  { p with question := q }

/-- `FilenamePrompt.item_focus` (inherited by `DownloadFilenamePrompt`)
moves the selection of the file tree view; the tree-view selection lives in
the presenter (Qt) layer, so the state visible to the core is unchanged. -/
def DownloadFilenamePrompt.item_focus (p : DownloadFilenamePrompt)
    (_which : Direction) : DownloadFilenamePrompt :=
  p

/-- `AuthenticationPrompt`: a prompt for username/password, with two line
edits and a focus proxy initially on the username field. -/
structure AuthenticationPrompt where
  question : Question
  user_lineedit : String
  password_lineedit : String
  focus : Option AuthField
deriving DecidableEq, Repr

/-- `AuthenticationPrompt.accept`:
with a value, `':' not in value` raises `Error`, otherwise the value is
split at the first colon (`value.split(':', maxsplit=1)`) into the
`AuthTuple` answer and the call resolves;
with no value, if the username field has focus the focus is moved to the
password field and the call reports partial progress (`False`), otherwise
the answer is built from both field contents. -/
def AuthenticationPrompt.accept (p : AuthenticationPrompt) (value : Option String) :
    Except String (Bool × AuthenticationPrompt) :=
  match value with
  | some v =>
    if pyInStr ':' v.data = false then
      Except.error ("Value needs to be in the format username:password, but "
        ++ v ++ " was given")
    else
      let r := pySplit1 ':' v
      let ans := Answer.auth r.1 (r.2.getD "")
      Except.ok (true, { p with question := { p.question with answer := some ans } })
  | none =>
    if p.focus = some AuthField.user then
      Except.ok (false, { p with focus := some AuthField.password })
    else
      let ans := Answer.auth p.user_lineedit p.password_lineedit
      Except.ok (true, { p with question := { p.question with answer := some ans } })

/-- `AuthenticationPrompt.item_focus`: tab switches from the username field
to the password field, shift-tab the other way. -/
def AuthenticationPrompt.item_focus (p : AuthenticationPrompt)
    (which : Direction) : AuthenticationPrompt :=
  if which = Direction.next && p.focus = some AuthField.user then
    { p with focus := some AuthField.password }
  else if which = Direction.prev && p.focus = some AuthField.password then
    { p with focus := some AuthField.user }
  else p

/-- `YesNoPrompt`: a prompt with yes/no answers. -/
structure YesNoPrompt where
  question : Question
deriving DecidableEq, Repr

/-- `YesNoPrompt.accept`: no value uses the question's default (raising
`Error` when no default is set); the literals yes/no set the boolean
answer; any other literal raises `Error`; every non-raising path returns
true. -/
def YesNoPrompt.accept (p : YesNoPrompt) (value : Option String) :
    Except String (Bool × YesNoPrompt) :=
  match value with
  | none =>
    match p.question.default with
    | none => Except.error "No default value was set for this question!"
    | some d =>
      Except.ok (true, { p with question := { p.question with answer := some d } })
  | some v =>
    if v = "yes" then
      Except.ok (true, { p with question := { p.question with answer := some (Answer.bool true) } })
    else if v = "no" then
      Except.ok (true, { p with question := { p.question with answer := some (Answer.bool false) } })
    else
      Except.error ("Invalid value " ++ v ++ " - expected yes/no!")

/-- `AlertPrompt`: a prompt without any answer possibility. -/
structure AlertPrompt where
  question : Question
deriving DecidableEq, Repr

/-- `AlertPrompt.accept`: raises `Error` when a value is supplied, does
nothing otherwise (acknowledgement only) and returns true. -/
def AlertPrompt.accept (p : AlertPrompt) (value : Option String) :
    Except String (Bool × AlertPrompt) :=
  match value with
  | some _ => Except.error "No value is permitted with alert prompts!"
  | none => Except.ok (true, p)

/-- The closed union of the prompt variant classes. -/
inductive Variant where
  | yesno (p : YesNoPrompt)
  | lineEdit (p : LineEditPrompt)
  | auth (p : AuthenticationPrompt)
  | downloadFilename (p : DownloadFilenamePrompt)
  | alert (p : AlertPrompt)
deriving DecidableEq, Repr

/-- The question wrapped by a variant (`self.question`). -/
def Variant.question : Variant → Question
  | Variant.yesno p => p.question
  | Variant.lineEdit p => p.question
  | Variant.auth p => p.question
  | Variant.downloadFilename p => p.question
  | Variant.alert p => p.question

/-- Rewrite the wrapped question in place (embeds mutation of the shared
question object). -/
def Variant.mapQuestion (f : Question → Question) : Variant → Variant
  | Variant.yesno p => Variant.yesno { p with question := f p.question }
  | Variant.lineEdit p => Variant.lineEdit { p with question := f p.question }
  | Variant.auth p => Variant.auth { p with question := f p.question }
  | Variant.downloadFilename p => Variant.downloadFilename { p with question := f p.question }
  | Variant.alert p => Variant.alert { p with question := f p.question }

/-- The key modes a prompt variant can require (`usertypes.KeyMode` members
relevant to this module). -/
inductive KeyMode where
  | prompt
  | yesno
deriving DecidableEq, Repr

/-- `KEY_MODE`: `usertypes.KeyMode.prompt` from `_BasePrompt`, overridden
to `yesno` by `YesNoPrompt`. -/
def Variant.KEY_MODE : Variant → KeyMode
  | Variant.yesno _ => KeyMode.yesno
  | _ => KeyMode.prompt

/-- Dispatch `accept` on the current variant (Python virtual call). -/
def Variant.accept : Variant → Option String → Except String (Bool × Variant)
  | Variant.yesno p, value =>
    match p.accept value with
    | Except.error e => Except.error e
    | Except.ok r => Except.ok (r.1, Variant.yesno r.2)
  | Variant.lineEdit p, value =>
    match p.accept value with
    | Except.error e => Except.error e
    | Except.ok r => Except.ok (r.1, Variant.lineEdit r.2)
  | Variant.auth p, value =>
    match p.accept value with
    | Except.error e => Except.error e
    | Except.ok r => Except.ok (r.1, Variant.auth r.2)
  | Variant.downloadFilename p, value =>
    match p.accept value with
    | Except.error e => Except.error e
    | Except.ok r => Except.ok (r.1, Variant.downloadFilename r.2)
  | Variant.alert p, value =>
    match p.accept value with
    | Except.error e => Except.error e
    | Except.ok r => Except.ok (r.1, Variant.alert r.2)

/-- The `UnsupportedOperationError` exception class, raised by the base
class for operations a variant does not implement. -/
inductive UnsupportedOperationError where
  | unsupported
deriving DecidableEq, Repr

/-- Dispatch `download_open`: the `_BasePrompt` implementation raises
`UnsupportedOperationError`; only `DownloadFilenamePrompt` overrides it. -/
def Variant.download_open : Variant → Option String → Except UnsupportedOperationError Variant
  | Variant.downloadFilename p, cmdline =>
    Except.ok (Variant.downloadFilename (p.download_open cmdline))
  | _, _ => Except.error UnsupportedOperationError.unsupported

/-- Dispatch `item_focus`: the `_BasePrompt` implementation raises
`UnsupportedOperationError`; `FilenamePrompt` (inherited by
`DownloadFilenamePrompt`) and `AuthenticationPrompt` override it. -/
def Variant.item_focus : Variant → Direction → Except UnsupportedOperationError Variant
  | Variant.downloadFilename p, which =>
    Except.ok (Variant.downloadFilename (p.item_focus which))
  | Variant.auth p, which =>
    Except.ok (Variant.auth (p.item_focus which))
  | _, _ => Except.error UnsupportedOperationError.unsupported

/-- The initial contents of a prompt's line edit:
`if question.default: self._lineedit.setText(question.default)`.
An absent or empty (falsy) default leaves the field empty, which coincides
with setting it to the empty string; non-string defaults do not occur for
text/filename questions. -/
def defaultText (q : Question) : String :=
  match q.default with
  | some (Answer.text s) => s
  | _ => ""

/-- The `YesNoPrompt(question, win_id)` constructor. -/
def YesNoPrompt.make (q : Question) : Variant :=
  Variant.yesno { question := q }

/-- The `LineEditPrompt(question, win_id)` constructor: the line edit is
pre-filled from the default and receives focus. -/
def LineEditPrompt.make (q : Question) : Variant :=
  Variant.lineEdit { question := q, lineedit := defaultText q }

/-- The `AuthenticationPrompt(question, win_id)` constructor: both fields
empty, focus proxy on the username field. -/
def AuthenticationPrompt.make (q : Question) : Variant :=
  Variant.auth { question := q, user_lineedit := "", password_lineedit := "",
                 focus := some AuthField.user }

/-- The `DownloadFilenamePrompt(question, win_id)` constructor. -/
def DownloadFilenamePrompt.make (q : Question) : Variant :=
  Variant.downloadFilename { question := q, lineedit := defaultText q }

/-- The `AlertPrompt(question, win_id)` constructor. -/
def AlertPrompt.make (q : Question) : Variant :=
  Variant.alert { question := q }

/-- The `classes` dict of `PromptContainer.ask_question`, mapping a
question mode to the variant constructor.  The dict has exactly five keys;
looking up a mode without an entry raises `KeyError`, hence the `Option`. -/
def classes : PromptMode → Option (Question → Variant)
  | PromptMode.yesno => some YesNoPrompt.make
  | PromptMode.text => some LineEditPrompt.make
  | PromptMode.user_pwd => some AuthenticationPrompt.make
  | PromptMode.download => some DownloadFilenamePrompt.make
  | PromptMode.alert => some AlertPrompt.make
  | PromptMode.filename => none

/-- A local event loop (`qtutils.EventLoop`): `quit` has been called /
`deleteLater` has been scheduled. -/
structure EventLoop where
  quitCalled : Bool
  deleteScheduled : Bool
deriving DecidableEq, Repr

/-- `PromptContainer` state: the current prompt slot (`_prompt`), the
shutdown flag (`_shutting_down`), the running local event loops of
suspended blocking asks (`_loops`), and the deque of waiting non-blocking
questions (`_queue`). -/
structure ContainerState where
  prompt : Option Variant
  shutting_down : Bool
  loops : List EventLoop
  queue : List Question
deriving DecidableEq, Repr

/-- `PromptContainer._show_prompt`: installs the given prompt (or `None`)
as current, hiding the previous one, and returns whether a prompt is now
shown.  The layout-consistency assertion, the mode entering and the
abort-signal subscription are presenter/mode-manager side effects. -/
def showPrompt (s : ContainerState) (p : Option Variant) : ContainerState × Bool :=
  ({ s with prompt := p }, p.isSome)

/-- The outcome of a call to `ask_question`:
it returns a value immediately, or suspends in a local event loop until the
question completes (remembering the prompt that was current at entry), or
raises `KeyError` on the `classes` dict lookup. -/
inductive AskOutcome where
  | returns (a : Option Answer)
  | suspends (saved : Option Variant)
  | raisesKeyError
deriving DecidableEq, Repr

/-- `PromptContainer.ask_question` up to the point where the call either
returns or suspends.  Returns the container state, the question as left by
the call (it is aborted on the shutdown path), and the outcome.
The branches, in source order: the shutdown check; queueing of a
non-blocking question while a prompt is current; saving of the old prompt
(blocking only); the `classes` dict dispatch and `_show_prompt`; then
either appending a fresh event loop and suspending (blocking) or
connecting the question's completion to `_pop_later` and returning `None`
(non-blocking, embedded in `serveSteps` below). -/
def ask_question (s : ContainerState) (q : Question) (blocking : Bool) :
    ContainerState × Question × AskOutcome :=
  if s.shutting_down then
    (s, q.abort, AskOutcome.returns none)
  else if s.prompt.isSome && !blocking then
    ({ s with queue := s.queue ++ [q] }, q, AskOutcome.returns none)
  else
    match classes q.mode with
    | none => (s, q, AskOutcome.raisesKeyError)
    | some mk =>
      let old_prompt := s.prompt
      let s1 := (showPrompt s (some (mk q))).1
      if blocking then
        ({ s1 with loops := s1.loops ++ [EventLoop.mk false false] }, q,
          AskOutcome.suspends old_prompt)
      else
        (s1, q, AskOutcome.returns none)

/-- The tail of a blocking `ask_question` call, from the return of
`loop.exec_()` on: restore the prompt saved at entry via `_show_prompt`;
when that reports nothing displayed and the queue is non-empty, schedule
`_pop` via `_pop_later` (the middle component records whether it was
scheduled); finally return `question.answer`.  It takes the container
state and the question as they are when the completion notification fires,
which may differ from their values at entry. -/
def blockingResume (saved : Option Variant) (s : ContainerState) (q : Question) :
    ContainerState × Bool × Option Answer :=
  let r := showPrompt s saved
  if !r.2 && !r.1.queue.isEmpty then
    (r.1, true, q.answer)
  else
    (r.1, false, q.answer)

/-- `PromptContainer._pop`: if the queue is non-empty, pop the front
question; a question already deleted (`sip.isdeleted`) is silently
discarded, any other is re-asked with `blocking=False`.  The second
component is the question that was served, if any. -/
def pop (s : ContainerState) : ContainerState × Option Question :=
  match s.queue with
  | [] => (s, none)
  | q :: rest =>
    let s1 := { s with queue := rest }
    if q.deleted then (s1, none)
    else ((ask_question s1 q false).1, some q)

/-- `PromptContainer.on_mode_left`: when the left mode is the current
prompt's `KEY_MODE`, clear the prompt via `_show_prompt(None)` and cancel
the question when it is still unanswered and not aborted.  The second
component is the prompt's question as left by the call (present exactly
when the clause ran). -/
def on_mode_left (s : ContainerState) (mode : KeyMode) : ContainerState × Option Question :=
  match s.prompt with
  | some p =>
    if mode = p.KEY_MODE then
      let s1 := (showPrompt s none).1
      if p.question.answer.isNone && !p.question.is_aborted then
        (s1, some p.question.cancel)
      else
        (s1, some p.question)
    else (s, none)
  | none => (s, none)

/-- `PromptContainer.shutdown`: set the shutdown flag; when event loops are
running, quit and delete each of them and return `True`, otherwise return
`False`. -/
def shutdown (s : ContainerState) : ContainerState × Bool :=
  let s1 := { s with shutting_down := true }
  if s1.loops.isEmpty then
    (s1, false)
  else
    ({ s1 with loops := s1.loops.map (fun _ => EventLoop.mk true true) }, true)

/-- The outcome of a command-style entry point: either
`cmdexc.CommandError` was raised (carrying the message and the container
state at the raise), or the call ran through (with, for `prompt_accept`,
whether the question was fully resolved). -/
inductive CmdOutcome where
  | raisedCommandError (msg : String) (s : ContainerState)
  | ran (s : ContainerState) (resolved : Bool)
deriving DecidableEq, Repr

/-- `PromptContainer.prompt_accept`: call `accept` on the current prompt;
an `Error` from it is re-raised as `cmdexc.CommandError` with the same
message; when `accept` reports the question resolved, `question.done()`
fires completion and the key mode is left (mode-manager side).  `none`
when no prompt is current (the command is only bound in prompt modes). -/
def prompt_accept (s : ContainerState) (value : Option String) : Option CmdOutcome :=
  match s.prompt with
  | none => none
  | some pr =>
    match pr.accept value with
    | Except.error e => some (CmdOutcome.raisedCommandError e s)
    | Except.ok r =>
      if r.1 then
        some (CmdOutcome.ran { s with prompt := some (r.2.mapQuestion Question.done) } true)
      else
        some (CmdOutcome.ran { s with prompt := some r.2 } false)

/-- `PromptContainer.prompt_open_download`: call `download_open` on the
current prompt, swallowing `UnsupportedOperationError` (`except ...:
pass`). -/
def prompt_open_download (s : ContainerState) (cmdline : Option String) :
    Option ContainerState :=
  match s.prompt with
  | none => none
  | some pr =>
    match pr.download_open cmdline with
    | Except.error _ => some s
    | Except.ok pr2 => some { s with prompt := some pr2 }

/-- `PromptContainer.prompt_item_focus`: call `item_focus` on the current
prompt, swallowing `UnsupportedOperationError`. -/
def prompt_item_focus (s : ContainerState) (which : Direction) :
    Option ContainerState :=
  match s.prompt with
  | none => none
  | some pr =>
    match pr.item_focus which with
    | Except.error _ => some s
    | Except.ok pr2 => some { s with prompt := some pr2 }

/-- A queued question that `_pop` will actually serve: not deleted, and its
mode has a `classes` entry so the re-invoked `ask_question` dispatches. -/
def servable (q : Question) : Bool :=
  !q.deleted && (classes q.mode).isSome

/-- The current question completes and its key mode is left: the
mode-manager round trip that ends in `on_mode_left` for the current
prompt's `KEY_MODE`. -/
def finishCurrent (s : ContainerState) : ContainerState :=
  match s.prompt with
  | none => s
  | some v => (on_mode_left s v.KEY_MODE).1

/-- Iterated service of the queue: each round runs `_pop` (as scheduled by
`_pop_later` when the previous question completed), then the served
question is answered and its mode left (`finishCurrent`).  Collects the
served questions in order; the fuel bounds the number of rounds. -/
def serveSteps : Nat → ContainerState → List Question
  | 0, _ => []
  | Nat.succ n, s =>
    match pop s with
    | (s1, none) => serveSteps n s1
    | (s1, some q) => q :: serveSteps n (finishCurrent s1)

/-- A fresh pending text question. -/
def qText : Question :=
  { mode := PromptMode.text, title := some "title", text := none, default := none,
    answer := none, is_aborted := false, completed := false, deleted := false }

/-- A fresh pending yes/no question. -/
def qYesNo : Question :=
  { qText with mode := PromptMode.yesno }

/-- A fresh pending credentials question. -/
def qAuth : Question :=
  { qText with mode := PromptMode.user_pwd }

/-- A fresh pending alert question. -/
def qAlert : Question :=
  { qText with mode := PromptMode.alert }

/-- A text question that was answered and completed. -/
def qAnswered : Question :=
  { qText with answer := some (Answer.text "hi"), completed := true }

/-- An idle container: nothing current, not shutting down, no loops,
empty queue. -/
def sIdle : ContainerState :=
  { prompt := none, shutting_down := false, loops := [], queue := [] }

/-- A container that is shutting down. -/
def sDown : ContainerState :=
  { sIdle with shutting_down := true }

/-- An idle container with one waiting question. -/
def sQueued : ContainerState :=
  { sIdle with queue := [qText] }

/-- A container busy with a text prompt. -/
def sBusy : ContainerState :=
  { sIdle with prompt := some (LineEditPrompt.make qText) }

/-- A freshly constructed credentials prompt. -/
def authP : AuthenticationPrompt :=
  { question := qAuth, user_lineedit := "", password_lineedit := "",
    focus := some AuthField.user }

/-- A freshly constructed yes/no prompt. -/
def yesNoP : YesNoPrompt :=
  { question := qYesNo }

theorem fst_ite_pair {α β : Type} (c : Prop) [Decidable c] (x : α) (a b : β) :
    (if c then (x, a) else (x, b)).1 = x := by
  split <;> rfl

/-- C3: if `shutting_down` is set when `ask_question` is called, the
question is aborted and the call returns `None` with the container state
untouched, for both blocking flags — the equation holds for every state
and every question, so in particular when a prompt is current (nothing is
queued) and when the question's mode has no `classes` entry (no variant is
constructed, no `KeyError`): the shutdown check precedes every other step. -/
theorem claim_C3 (s : ContainerState) (q : Question) (blocking : Bool)
    (hsd : s.shutting_down = true) (hq : q.completed = false) :
    ask_question s q blocking = (s, q.abort, AskOutcome.returns none) ∧
    (Question.abort q).is_aborted = true := by
  constructor
  · simp [ask_question, hsd]
  · simp [Question.abort, hq]

/-- Witness for C3 at a concrete shutting-down container and a pending
question. -/
theorem claim_C3_witness :
    sDown.shutting_down = true ∧ qText.completed = false ∧
    ask_question sDown qText true = (sDown, qText.abort, AskOutcome.returns none) ∧
    (Question.abort qText).is_aborted = true :=
  ⟨rfl, rfl, (claim_C3 sDown qText true rfl rfl).1, (claim_C3 sDown qText true rfl rfl).2⟩

/-- C4: `shutdown` sets `shutting_down`, quits and deletes every running
event loop (one per suspended blocking ask), and returns `True` exactly
when at least one such loop existed at the time of the call. -/
theorem claim_C4 (s : ContainerState) :
    shutdown s = ({ s with shutting_down := true, loops := s.loops.map (fun _ => EventLoop.mk true true) }, !s.loops.isEmpty) ∧
    ((shutdown s).2 = true ↔ s.loops ≠ []) := by
  obtain ⟨p, sd, lo, qu⟩ := s
  cases lo <;> simp [shutdown]

/-- C1: a blocking ask (not during shutdown, mode dispatch succeeding)
saves the prompt that is current at entry — possibly `none` — and suspends
with the new variant shown and a fresh event loop appended; when the
question's completion notification fires, the saved prompt is restored via
`_show_prompt`, a deferred `_pop` is scheduled exactly when that restore
reports nothing displayed (the saved prompt was `none`) and the queue at
resume time is non-empty, and the call returns the question's answer —
which is absent when the question was aborted, since `cancel`/`abort`
never set an answer. -/
theorem claim_C1 (s : ContainerState) (q : Question) (mk : Question → Variant)
    (s2 : ContainerState) (q2 q3 : Question)
    (hsd : s.shutting_down = false) (hmk : classes q.mode = some mk)
    (hq3 : q3.answer = none) :
    ask_question s q true = ({ s with prompt := some (mk q), loops := s.loops ++ [EventLoop.mk false false] }, q, AskOutcome.suspends s.prompt) ∧
    blockingResume s.prompt s2 q2 = ({ s2 with prompt := s.prompt }, !s.prompt.isSome && !s2.queue.isEmpty, q2.answer) ∧
    (Question.abort q3).answer = none ∧ (Question.cancel q3).answer = none := by
  refine ⟨?_, ?_, ?_, ?_⟩
  · simp [ask_question, hsd, hmk, showPrompt]
  · unfold blockingResume showPrompt
    cases hp : s.prompt <;> cases hqu : s2.queue <;> simp [hp, hqu]
  · unfold Question.abort
    split <;> simp [hq3]
  · unfold Question.cancel
    split <;> simp [hq3]

/-- Witness for C1: a blocking text ask on an idle container (saved prompt
`none`), resuming in a state with a non-empty queue, with an answered
question. -/
theorem claim_C1_witness :
    sIdle.shutting_down = false ∧ classes qText.mode = some LineEditPrompt.make ∧ qText.answer = none ∧
    ask_question sIdle qText true = ({ sIdle with prompt := some (LineEditPrompt.make qText), loops := sIdle.loops ++ [EventLoop.mk false false] }, qText, AskOutcome.suspends sIdle.prompt) ∧
    blockingResume sIdle.prompt sQueued qAnswered = ({ sQueued with prompt := sIdle.prompt }, !sIdle.prompt.isSome && !sQueued.queue.isEmpty, qAnswered.answer) ∧
    (Question.abort qText).answer = none ∧ (Question.cancel qText).answer = none :=
  ⟨rfl, rfl, rfl,
    (claim_C1 sIdle qText LineEditPrompt.make sQueued qAnswered qText rfl rfl rfl).1,
    (claim_C1 sIdle qText LineEditPrompt.make sQueued qAnswered qText rfl rfl rfl).2.1,
    (claim_C1 sIdle qText LineEditPrompt.make sQueued qAnswered qText rfl rfl rfl).2.2.1,
    (claim_C1 sIdle qText LineEditPrompt.make sQueued qAnswered qText rfl rfl rfl).2.2.2⟩

theorem serveSteps_fifo : ∀ (qs : List Question) (t : ContainerState),
    t.prompt = none → t.shutting_down = false → qs.all servable = true →
    t.queue = qs → serveSteps qs.length t = qs := by
  intro qs
  induction qs with
  | nil =>
    intro t _ _ _ _
    simp [serveSteps]
  | cons q rest ih =>
    intro t hp hsd hall hq
    obtain ⟨tp, tsd, tlo, tq⟩ := t
    simp only at hp hsd hq
    subst hp hsd hq
    simp only [List.all_cons, Bool.and_eq_true] at hall
    obtain ⟨hserv, hrest⟩ := hall
    simp only [servable, Bool.and_eq_true, Bool.not_eq_true'] at hserv
    obtain ⟨hdel, hsome⟩ := hserv
    obtain ⟨mk, hmk⟩ := Option.isSome_iff_exists.mp hsome
    simp only [List.length_cons, serveSteps]
    simp [pop, hdel, ask_question, hmk, showPrompt, finishCurrent, on_mode_left, fst_ite_pair]
    exact ih ⟨none, false, tlo, rest⟩ rfl rfl hrest rfl

/-- C2: a non-blocking ask while a variant is current appends the question
to the back of the queue and returns `None`; `_pop` (serve next) pops
exactly the front of the queue and re-invokes `ask_question` on it with
`blocking=False`; consequently, a queue of waiting non-blocking questions
(none of them deleted, each with a dispatchable mode) is served exactly in
enqueue order, each becoming current in turn as the previous question
completes and its mode is left. -/
theorem claim_C2 (s : ContainerState) (q : Question) (v : Variant)
    (u : ContainerState) (q2 : Question) (rest : List Question)
    (t : ContainerState)
    (hsp : s.prompt = some v) (hssd : s.shutting_down = false)
    (huq : u.queue = q2 :: rest) (hq2 : q2.deleted = false)
    (htp : t.prompt = none) (htsd : t.shutting_down = false)
    (htall : t.queue.all servable = true) :
    ask_question s q false = ({ s with queue := s.queue ++ [q] }, q, AskOutcome.returns none) ∧
    pop u = ((ask_question { u with queue := rest } q2 false).1, some q2) ∧
    serveSteps t.queue.length t = t.queue := by
  refine ⟨?_, ?_, ?_⟩
  · simp [ask_question, hssd, hsp]
  · obtain ⟨up, usd, ulo, uq⟩ := u
    simp only at huq
    subst huq
    simp [pop, hq2]
  · exact serveSteps_fifo t.queue t htp htsd htall rfl

/-- Witness for C2: a busy container enqueues, a queued container serves
its front, and a one-element queue is served in order. -/
theorem claim_C2_witness :
    sBusy.prompt = some (LineEditPrompt.make qText) ∧ sBusy.shutting_down = false ∧
    sQueued.queue = qText :: [] ∧ qText.deleted = false ∧
    sQueued.prompt = none ∧ sQueued.shutting_down = false ∧
    sQueued.queue.all servable = true ∧
    ask_question sBusy qText false = ({ sBusy with queue := sBusy.queue ++ [qText] }, qText, AskOutcome.returns none) ∧
    pop sQueued = ((ask_question { sQueued with queue := [] } qText false).1, some qText) ∧
    serveSteps sQueued.queue.length sQueued = sQueued.queue := by
  refine ⟨rfl, rfl, rfl, rfl, rfl, rfl, rfl, ?_, ?_, ?_⟩
  · exact (claim_C2 sBusy qText (LineEditPrompt.make qText) sQueued qText [] sQueued
      rfl rfl rfl rfl rfl rfl rfl).1
  · exact (claim_C2 sBusy qText (LineEditPrompt.make qText) sQueued qText [] sQueued
      rfl rfl rfl rfl rfl rfl rfl).2.1
  · exact (claim_C2 sBusy qText (LineEditPrompt.make qText) sQueued qText [] sQueued
      rfl rfl rfl rfl rfl rfl rfl).2.2

/-- C5 counterexample: the `classes` dict of `ask_question` has no entry
for the Filename mode of the spec's six-member mode enum (its five keys
are yesno, text, user_pwd, download and alert; `FilenamePrompt` is only
used as the base class of `DownloadFilenamePrompt`), so the factory is not
total over the enum: dispatching a Filename-mode question raises
`KeyError`. -/
theorem claim_C5_counterexample :
    (classes PromptMode.filename).isSome = false ∧
    (ask_question sIdle { qText with mode := PromptMode.filename } false).2.2 = AskOutcome.raisesKeyError := by
  constructor
  · rfl
  · rfl

/-- C5 amended: the variant factory yields a constructor for exactly the
five modes YesNo, Text, Credentials (user_pwd), DownloadFilename
(download) and Alert — not for the spec's sixth mode, Filename — and ask
never fails on mode dispatch for a question whose mode is one of those
five. -/
theorem claim_C5 (s : ContainerState) (q : Question) (blocking : Bool)
    (hmode : q.mode ≠ PromptMode.filename) :
    (classes PromptMode.yesno).isSome = true ∧
    (classes PromptMode.text).isSome = true ∧
    (classes PromptMode.user_pwd).isSome = true ∧
    (classes PromptMode.download).isSome = true ∧
    (classes PromptMode.alert).isSome = true ∧
    (ask_question s q blocking).2.2 ≠ AskOutcome.raisesKeyError := by
  refine ⟨rfl, rfl, rfl, rfl, rfl, ?_⟩
  have hsome : (classes q.mode).isSome = true := by
    cases hm : q.mode <;> simp [classes]
    exact hmode hm
  obtain ⟨mk, hmk⟩ := Option.isSome_iff_exists.mp hsome
  by_cases h1 : s.shutting_down
  · simp [ask_question, h1]
  · by_cases h2 : (s.prompt.isSome && !blocking) = true
    · simp [ask_question, h1, h2]
    · cases blocking <;> (simp [ask_question, h1, h2, hmk, showPrompt]; try (split <;> simp))

/-- Witness for C5 as amended, at a concrete text-mode question. -/
theorem claim_C5_witness :
    qText.mode ≠ PromptMode.filename ∧
    (classes PromptMode.yesno).isSome = true ∧
    (classes PromptMode.text).isSome = true ∧
    (classes PromptMode.user_pwd).isSome = true ∧
    (classes PromptMode.download).isSome = true ∧
    (classes PromptMode.alert).isSome = true ∧
    (ask_question sIdle qText false).2.2 ≠ AskOutcome.raisesKeyError :=
  ⟨by decide, (claim_C5 sIdle qText false (by decide)).1,
    (claim_C5 sIdle qText false (by decide)).2.1,
    (claim_C5 sIdle qText false (by decide)).2.2.1,
    (claim_C5 sIdle qText false (by decide)).2.2.2.1,
    (claim_C5 sIdle qText false (by decide)).2.2.2.2.1,
    (claim_C5 sIdle qText false (by decide)).2.2.2.2.2⟩

theorem pyInStr_append_sep (sep : Char) (u rest : List Char) :
    pyInStr sep (u ++ sep :: rest) = true := by
  induction u with
  | nil => simp [pyInStr]
  | cons a l ih => simp [pyInStr, ih]

theorem splitFirst_no_sep (sep : Char) (u rest : List Char)
    (h : pyInStr sep u = false) :
    splitFirst sep (u ++ sep :: rest) = (u, some rest) := by
  induction u with
  | nil => simp [splitFirst]
  | cons a l ih =>
    simp only [pyInStr, Bool.or_eq_false_iff, decide_eq_false_iff_not] at h
    obtain ⟨h1, h2⟩ := h
    simp [splitFirst, h1, ih h2]

theorem string_data_append (s t : String) : (s ++ t).data = s.data ++ t.data := by
  cases s
  cases t
  rfl

theorem string_mk_data (s : String) : String.mk s.data = s := by
  cases s
  rfl

/-- C6: `AuthenticationPrompt.accept` — a value without a colon raises
`Error` (the spec's InvalidValueError); a value containing a colon resolves
in one call, the answer being the split at the first colon, returning
true; no value while the username field has focus returns false and moves
focus to the password field, leaving the question untouched and open; no
value otherwise resolves with both field contents, returning true. -/
theorem claim_C6 (p pf pn : AuthenticationPrompt) (v w : String)
    (hv : pyInStr ':' v.data = false)
    (hw : pyInStr ':' w.data = true)
    (hpf : pf.focus = some AuthField.user)
    (hpn : pn.focus ≠ some AuthField.user) :
    p.accept (some v) = Except.error ("Value needs to be in the format username:password, but " ++ v ++ " was given") ∧
    p.accept (some w) = Except.ok (true, { p with question := { p.question with answer := some (Answer.auth (pySplit1 ':' w).1 ((pySplit1 ':' w).2.getD "")) } }) ∧
    pf.accept none = Except.ok (false, { pf with focus := some AuthField.password }) ∧
    pn.accept none = Except.ok (true, { pn with question := { pn.question with answer := some (Answer.auth pn.user_lineedit pn.password_lineedit) } }) := by
  refine ⟨?_, ?_, ?_, ?_⟩
  · simp [AuthenticationPrompt.accept, hv]
  · simp [AuthenticationPrompt.accept, hw]
  · simp [AuthenticationPrompt.accept, hpf]
  · simp [AuthenticationPrompt.accept, hpn]

/-- Witness for C6 on a fresh credentials prompt: a colon-free override, a
concrete `alice:secret` override (whose split evaluates to the pair
`alice` / `secret`), and both no-override focus situations. -/
theorem claim_C6_witness :
    pyInStr ':' ("nope" : String).data = false ∧
    pyInStr ':' ("alice:secret" : String).data = true ∧
    authP.focus = some AuthField.user ∧
    ({ authP with focus := some AuthField.password } : AuthenticationPrompt).focus ≠ some AuthField.user ∧
    authP.accept (some "nope") = Except.error ("Value needs to be in the format username:password, but " ++ "nope" ++ " was given") ∧
    authP.accept (some "alice:secret") = Except.ok (true, { authP with question := { authP.question with answer := some (Answer.auth (pySplit1 ':' "alice:secret").1 ((pySplit1 ':' "alice:secret").2.getD "")) } }) ∧
    pySplit1 ':' "alice:secret" = ("alice", some "secret") ∧
    authP.accept none = Except.ok (false, { authP with focus := some AuthField.password }) ∧
    ({ authP with focus := some AuthField.password } : AuthenticationPrompt).accept none = Except.ok (true, { { authP with focus := some AuthField.password } with question := { authP.question with answer := some (Answer.auth authP.user_lineedit authP.password_lineedit) } }) := by
  refine ⟨by decide, by decide, rfl, by decide, ?_, ?_, by decide, ?_, ?_⟩
  · exact (claim_C6 authP authP { authP with focus := some AuthField.password }
      "nope" "alice:secret" (by decide) (by decide) rfl (by decide)).1
  · exact (claim_C6 authP authP { authP with focus := some AuthField.password }
      "nope" "alice:secret" (by decide) (by decide) rfl (by decide)).2.1
  · exact (claim_C6 authP authP { authP with focus := some AuthField.password }
      "nope" "alice:secret" (by decide) (by decide) rfl (by decide)).2.2.1
  · exact (claim_C6 authP authP { authP with focus := some AuthField.password }
      "nope" "alice:secret" (by decide) (by decide) rfl (by decide)).2.2.2

/-- C10: a credentials override with more than one colon does not fail:
`value.split(':', maxsplit=1)` splits at the first colon only, so for every
colon-free `u` and arbitrary `rest`, accepting `u ++ ":" ++ rest` resolves
with answer `(u, rest)` even when `rest` itself contains colons. -/
theorem claim_C10 (p : AuthenticationPrompt) (u rest : String)
    (hu : pyInStr ':' u.data = false) :
    p.accept (some (u ++ ":" ++ rest)) = Except.ok (true, { p with question := { p.question with answer := some (Answer.auth u rest) } }) := by
  have hcolon : (":" : String).data = [':'] := rfl
  have hdata : (u ++ ":" ++ rest).data = u.data ++ ':' :: rest.data := by
    rw [string_data_append, string_data_append, hcolon]
    simp
  simp only [AuthenticationPrompt.accept, pySplit1, hdata, pyInStr_append_sep,
    splitFirst_no_sep ':' u.data rest.data hu]
  simp [string_mk_data]

/-- Witness for C10: `a:b:c` yields the answer pair `a` / `b:c`. -/
theorem claim_C10_witness :
    pyInStr ':' ("a" : String).data = false ∧
    authP.accept (some ("a" ++ ":" ++ "b:c")) = Except.ok (true, { authP with question := { authP.question with answer := some (Answer.auth "a" "b:c") } }) :=
  ⟨by decide, claim_C10 authP "a" "b:c" (by decide)⟩

/-- C7: `YesNoPrompt.accept` — no value with no default raises `Error`
(the spec's NoDefaultError); no value with a default set answers with the
default; the literal yes answers true; the literal no answers false; any
other literal raises `Error` (the spec's InvalidValueError); and every
non-raising call returns true — it never returns false. -/
theorem claim_C7 (p0 pd pAny : YesNoPrompt) (d : Answer) (v : String)
    (value : Option String) (b : Bool) (p2 : YesNoPrompt)
    (h0 : p0.question.default = none)
    (hd : pd.question.default = some d)
    (hv1 : v ≠ "yes") (hv2 : v ≠ "no")
    (hacc : pAny.accept value = Except.ok (b, p2)) :
    p0.accept none = Except.error "No default value was set for this question!" ∧
    pd.accept none = Except.ok (true, { pd with question := { pd.question with answer := some d } }) ∧
    pAny.accept (some "yes") = Except.ok (true, { pAny with question := { pAny.question with answer := some (Answer.bool true) } }) ∧
    pAny.accept (some "no") = Except.ok (true, { pAny with question := { pAny.question with answer := some (Answer.bool false) } }) ∧
    pAny.accept (some v) = Except.error ("Invalid value " ++ v ++ " - expected yes/no!") ∧
    b = true := by
  refine ⟨?_, ?_, ?_, ?_, ?_, ?_⟩
  · simp [YesNoPrompt.accept, h0]
  · simp [YesNoPrompt.accept, hd]
  · simp [YesNoPrompt.accept]
  · simp [YesNoPrompt.accept]
  · simp [YesNoPrompt.accept, hv1, hv2]
  · unfold YesNoPrompt.accept at hacc
    cases value with
    | none =>
      cases hq : pAny.question.default <;> simp [hq] at hacc
      exact hacc.1
    | some w =>
      by_cases hw1 : w = "yes"
      · simp [hw1] at hacc
        exact hacc.1
      · by_cases hw2 : w = "no"
        · simp [hw1, hw2] at hacc
          exact hacc.1
        · simp [hw1, hw2] at hacc

/-- Witness for C7: a default-free prompt, a prompt with default true, and
the literals yes, no and maybe. -/
theorem claim_C7_witness :
    yesNoP.question.default = none ∧
    ({ yesNoP with question := { yesNoP.question with default := some (Answer.bool true) } } : YesNoPrompt).question.default = some (Answer.bool true) ∧
    ("maybe" : String) ≠ "yes" ∧ ("maybe" : String) ≠ "no" ∧
    yesNoP.accept (some "yes") = Except.ok (true, { yesNoP with question := { yesNoP.question with answer := some (Answer.bool true) } }) ∧
    yesNoP.accept none = Except.error "No default value was set for this question!" ∧
    ({ yesNoP with question := { yesNoP.question with default := some (Answer.bool true) } } : YesNoPrompt).accept none = Except.ok (true, { { yesNoP with question := { yesNoP.question with default := some (Answer.bool true) } } with question := { { yesNoP.question with default := some (Answer.bool true) } with answer := some (Answer.bool true) } }) ∧
    yesNoP.accept (some "no") = Except.ok (true, { yesNoP with question := { yesNoP.question with answer := some (Answer.bool false) } }) ∧
    yesNoP.accept (some "maybe") = Except.error ("Invalid value " ++ "maybe" ++ " - expected yes/no!") ∧
    (true : Bool) = true := by
  refine ⟨rfl, rfl, by decide, by decide, rfl, ?_, ?_, ?_, ?_, ?_⟩
  · exact (claim_C7 yesNoP { yesNoP with question := { yesNoP.question with default := some (Answer.bool true) } } yesNoP (Answer.bool true) "maybe" (some "yes") true
      { yesNoP with question := { yesNoP.question with answer := some (Answer.bool true) } }
      rfl rfl (by decide) (by decide) rfl).1
  · exact (claim_C7 yesNoP { yesNoP with question := { yesNoP.question with default := some (Answer.bool true) } } yesNoP (Answer.bool true) "maybe" (some "yes") true
      { yesNoP with question := { yesNoP.question with answer := some (Answer.bool true) } }
      rfl rfl (by decide) (by decide) rfl).2.1
  · exact (claim_C7 yesNoP { yesNoP with question := { yesNoP.question with default := some (Answer.bool true) } } yesNoP (Answer.bool true) "maybe" (some "yes") true
      { yesNoP with question := { yesNoP.question with answer := some (Answer.bool true) } }
      rfl rfl (by decide) (by decide) rfl).2.2.2.1
  · exact (claim_C7 yesNoP { yesNoP with question := { yesNoP.question with default := some (Answer.bool true) } } yesNoP (Answer.bool true) "maybe" (some "yes") true
      { yesNoP with question := { yesNoP.question with answer := some (Answer.bool true) } }
      rfl rfl (by decide) (by decide) rfl).2.2.2.2.1
  · exact (claim_C7 yesNoP { yesNoP with question := { yesNoP.question with default := some (Answer.bool true) } } yesNoP (Answer.bool true) "maybe" (some "yes") true
      { yesNoP with question := { yesNoP.question with answer := some (Answer.bool true) } }
      rfl rfl (by decide) (by decide) rfl).2.2.2.2.2

/-- C8: at the command-entry boundary, an `Error` raised by the current
variant's `accept` (the spec's InvalidValueError/NoDefaultError) is
re-raised as `cmdexc.CommandError` carrying the same message, with the
container state untouched, so the question remains open; an
`UnsupportedOperationError` raised by `download_open` or `item_focus` is
swallowed (`except ...: pass`), making `prompt_open_download` and
`prompt_item_focus` silent no-ops on variants lacking the capability —
which are every variant but `DownloadFilenamePrompt` for `download_open`,
and the yes/no, line-edit and alert variants for `item_focus`. -/
theorem claim_C8 (s1 s2 s3 : ContainerState) (v1 v2 v3 : Variant)
    (value cl : Option String) (w : Direction) (e : String)
    (py : YesNoPrompt) (pl : LineEditPrompt) (pa : AlertPrompt) (pau : AuthenticationPrompt)
    (h1 : s1.prompt = some v1) (hacc : v1.accept value = Except.error e)
    (h2 : s2.prompt = some v2)
    (hdl : v2.download_open cl = Except.error UnsupportedOperationError.unsupported)
    (h3 : s3.prompt = some v3)
    (hif : v3.item_focus w = Except.error UnsupportedOperationError.unsupported) :
    prompt_accept s1 value = some (CmdOutcome.raisedCommandError e s1) ∧
    prompt_open_download s2 cl = some s2 ∧
    prompt_item_focus s3 w = some s3 ∧
    (Variant.yesno py).download_open cl = Except.error UnsupportedOperationError.unsupported ∧
    (Variant.lineEdit pl).download_open cl = Except.error UnsupportedOperationError.unsupported ∧
    (Variant.alert pa).download_open cl = Except.error UnsupportedOperationError.unsupported ∧
    (Variant.auth pau).download_open cl = Except.error UnsupportedOperationError.unsupported ∧
    (Variant.yesno py).item_focus w = Except.error UnsupportedOperationError.unsupported ∧
    (Variant.lineEdit pl).item_focus w = Except.error UnsupportedOperationError.unsupported ∧
    (Variant.alert pa).item_focus w = Except.error UnsupportedOperationError.unsupported := by
  refine ⟨?_, ?_, ?_, rfl, rfl, rfl, rfl, rfl, rfl, rfl⟩
  · simp [prompt_accept, h1, hacc]
  · simp [prompt_open_download, h2, hdl]
  · simp [prompt_item_focus, h3, hif]

/-- Witness for C8: an alert prompt rejecting a value (command error,
state unchanged), and yes/no and line-edit prompts on which open-download
and item-focus are silent no-ops. -/
theorem claim_C8_witness :
    ({ sIdle with prompt := some (Variant.alert { question := qAlert }) } : ContainerState).prompt = some (Variant.alert { question := qAlert }) ∧
    (Variant.alert { question := qAlert }).accept (some "x") = Except.error "No value is permitted with alert prompts!" ∧
    ({ sIdle with prompt := some (Variant.yesno yesNoP) } : ContainerState).prompt = some (Variant.yesno yesNoP) ∧
    (Variant.yesno yesNoP).download_open none = Except.error UnsupportedOperationError.unsupported ∧
    ({ sIdle with prompt := some (Variant.lineEdit { question := qText, lineedit := "" }) } : ContainerState).prompt = some (Variant.lineEdit { question := qText, lineedit := "" }) ∧
    (Variant.lineEdit { question := qText, lineedit := "" }).item_focus Direction.next = Except.error UnsupportedOperationError.unsupported ∧
    prompt_accept { sIdle with prompt := some (Variant.alert { question := qAlert }) } (some "x") = some (CmdOutcome.raisedCommandError "No value is permitted with alert prompts!" { sIdle with prompt := some (Variant.alert { question := qAlert }) }) ∧
    prompt_open_download { sIdle with prompt := some (Variant.yesno yesNoP) } none = some { sIdle with prompt := some (Variant.yesno yesNoP) } ∧
    prompt_item_focus { sIdle with prompt := some (Variant.lineEdit { question := qText, lineedit := "" }) } Direction.next = some { sIdle with prompt := some (Variant.lineEdit { question := qText, lineedit := "" }) } := by
  refine ⟨rfl, rfl, rfl, rfl, rfl, rfl, ?_, ?_, ?_⟩
  · exact (claim_C8 { sIdle with prompt := some (Variant.alert { question := qAlert }) }
      { sIdle with prompt := some (Variant.yesno yesNoP) }
      { sIdle with prompt := some (Variant.lineEdit { question := qText, lineedit := "" }) }
      (Variant.alert { question := qAlert }) (Variant.yesno yesNoP)
      (Variant.lineEdit { question := qText, lineedit := "" })
      (some "x") none Direction.next "No value is permitted with alert prompts!"
      yesNoP { question := qText, lineedit := "" } { question := qAlert } authP
      rfl rfl rfl rfl rfl rfl).1
  · exact (claim_C8 { sIdle with prompt := some (Variant.alert { question := qAlert }) }
      { sIdle with prompt := some (Variant.yesno yesNoP) }
      { sIdle with prompt := some (Variant.lineEdit { question := qText, lineedit := "" }) }
      (Variant.alert { question := qAlert }) (Variant.yesno yesNoP)
      (Variant.lineEdit { question := qText, lineedit := "" })
      (some "x") none Direction.next "No value is permitted with alert prompts!"
      yesNoP { question := qText, lineedit := "" } { question := qAlert } authP
      rfl rfl rfl rfl rfl rfl).2.1
  · exact (claim_C8 { sIdle with prompt := some (Variant.alert { question := qAlert }) }
      { sIdle with prompt := some (Variant.yesno yesNoP) }
      { sIdle with prompt := some (Variant.lineEdit { question := qText, lineedit := "" }) }
      (Variant.alert { question := qAlert }) (Variant.yesno yesNoP)
      (Variant.lineEdit { question := qText, lineedit := "" })
      (some "x") none Direction.next "No value is permitted with alert prompts!"
      yesNoP { question := qText, lineedit := "" } { question := qAlert } authP
      rfl rfl rfl rfl rfl rfl).2.2.1

/-- C9: when the mode-left callback fires for the key mode of the current
variant, the current slot is cleared (`_show_prompt(None)`); the question
is cancelled exactly when it is still unanswered and not already aborted —
a question that already has an answer or is aborted is left untouched. -/
theorem claim_C9 (s1 s2 : ContainerState) (v1 v2 : Variant)
    (h1 : s1.prompt = some v1) (h2 : s2.prompt = some v2)
    (ha : v1.question.answer = none) (hb : v1.question.is_aborted = false)
    (hc : v1.question.completed = false)
    (hd : (v2.question.answer.isSome || v2.question.is_aborted) = true) :
    (on_mode_left s1 v1.KEY_MODE).1.prompt = none ∧
    (on_mode_left s1 v1.KEY_MODE).2 = some v1.question.cancel ∧
    (v1.question.cancel).is_aborted = true ∧
    (on_mode_left s2 v2.KEY_MODE).1.prompt = none ∧
    (on_mode_left s2 v2.KEY_MODE).2 = some v2.question := by
  refine ⟨?_, ?_, ?_, ?_, ?_⟩
  · simp [on_mode_left, h1, showPrompt, ha, hb]
  · simp [on_mode_left, h1, showPrompt, ha, hb]
  · simp [Question.cancel, hc]
  · cases hq : v2.question.answer with
    | none =>
      simp [hq] at hd
      simp [on_mode_left, h2, showPrompt, hq, hd]
    | some a => simp [on_mode_left, h2, showPrompt, hq]
  · cases hq : v2.question.answer with
    | none =>
      simp [hq] at hd
      simp [on_mode_left, h2, showPrompt, hq, hd]
    | some a => simp [on_mode_left, h2, showPrompt, hq]

/-- Witness for C9: an alert prompt on a pending question (cancelled), and
a line-edit prompt on an answered question (left untouched). -/
theorem claim_C9_witness :
    ({ sIdle with prompt := some (Variant.alert { question := qAlert }) } : ContainerState).prompt = some (Variant.alert { question := qAlert }) ∧
    ({ sIdle with prompt := some (Variant.lineEdit { question := qAnswered, lineedit := "" }) } : ContainerState).prompt = some (Variant.lineEdit { question := qAnswered, lineedit := "" }) ∧
    (Variant.alert { question := qAlert }).question.answer = none ∧
    (Variant.alert { question := qAlert }).question.is_aborted = false ∧
    (Variant.alert { question := qAlert }).question.completed = false ∧
    ((Variant.lineEdit { question := qAnswered, lineedit := "" }).question.answer.isSome || (Variant.lineEdit { question := qAnswered, lineedit := "" }).question.is_aborted) = true ∧
    (on_mode_left { sIdle with prompt := some (Variant.alert { question := qAlert }) } (Variant.alert { question := qAlert }).KEY_MODE).1.prompt = none ∧
    (on_mode_left { sIdle with prompt := some (Variant.alert { question := qAlert }) } (Variant.alert { question := qAlert }).KEY_MODE).2 = some (Variant.alert { question := qAlert }).question.cancel ∧
    ((Variant.alert { question := qAlert }).question.cancel).is_aborted = true ∧
    (on_mode_left { sIdle with prompt := some (Variant.lineEdit { question := qAnswered, lineedit := "" }) } (Variant.lineEdit { question := qAnswered, lineedit := "" }).KEY_MODE).1.prompt = none ∧
    (on_mode_left { sIdle with prompt := some (Variant.lineEdit { question := qAnswered, lineedit := "" }) } (Variant.lineEdit { question := qAnswered, lineedit := "" }).KEY_MODE).2 = some (Variant.lineEdit { question := qAnswered, lineedit := "" }).question := by
  refine ⟨rfl, rfl, rfl, rfl, rfl, rfl, ?_, ?_, ?_, ?_, ?_⟩
  · exact (claim_C9 { sIdle with prompt := some (Variant.alert { question := qAlert }) }
      { sIdle with prompt := some (Variant.lineEdit { question := qAnswered, lineedit := "" }) }
      (Variant.alert { question := qAlert }) (Variant.lineEdit { question := qAnswered, lineedit := "" })
      rfl rfl rfl rfl rfl rfl).1
  · exact (claim_C9 { sIdle with prompt := some (Variant.alert { question := qAlert }) }
      { sIdle with prompt := some (Variant.lineEdit { question := qAnswered, lineedit := "" }) }
      (Variant.alert { question := qAlert }) (Variant.lineEdit { question := qAnswered, lineedit := "" })
      rfl rfl rfl rfl rfl rfl).2.1
  · exact (claim_C9 { sIdle with prompt := some (Variant.alert { question := qAlert }) }
      { sIdle with prompt := some (Variant.lineEdit { question := qAnswered, lineedit := "" }) }
      (Variant.alert { question := qAlert }) (Variant.lineEdit { question := qAnswered, lineedit := "" })
      rfl rfl rfl rfl rfl rfl).2.2.1
  · exact (claim_C9 { sIdle with prompt := some (Variant.alert { question := qAlert }) }
      { sIdle with prompt := some (Variant.lineEdit { question := qAnswered, lineedit := "" }) }
      (Variant.alert { question := qAlert }) (Variant.lineEdit { question := qAnswered, lineedit := "" })
      rfl rfl rfl rfl rfl rfl).2.2.2.1
  · exact (claim_C9 { sIdle with prompt := some (Variant.alert { question := qAlert }) }
      { sIdle with prompt := some (Variant.lineEdit { question := qAnswered, lineedit := "" }) }
      (Variant.alert { question := qAlert }) (Variant.lineEdit { question := qAnswered, lineedit := "" })
      rfl rfl rfl rfl rfl rfl).2.2.2.2

end QutePrompt
